import Mathlib

/-!
# Verification of the parking-admin request handlers and registration component

Shallow embedding of three source files of the parking-admin repository:

* `src/app/api/push-subscriptions/route.ts` — the web-push subscription
  `POST` and `DELETE` handlers over the `ticket_subscriptions` collection;
* `src/app/api/admin/pending-payments/route.ts` — the `GET` handler listing
  pending payments from the `pagos` collection;
* the `CarRegistration` React client component (vehicle registration form
  with optional camera capture).

The document store is modelled as a list of records (for `ticket_subscriptions`,
a structure mirroring the inserted document; for `pagos`, an association list of
field names to values, so that projection can be expressed faithfully).
Each database call that can fail is modelled by a failure-point parameter:
the handler aborts with the HTTP 500 response at the corresponding step,
exactly as the surrounding `try`/`catch` does in the source.  A request body
that fails to parse (`request.json()` throwing) is modelled as `none`.
JavaScript truthiness on optional string fields (`!x` is true for `undefined`,
`null` and `""`) is modelled by `truthy`.
-/

/-- JavaScript truthiness of an optional string: absent (`undefined`/`null`)
and the empty string are falsy, any other string is truthy. -/
def truthy : Option String → Bool
  | none => false
  | some s => s ≠ ""

/-- JavaScript `x || d` for an optional string `x` and default `d`:
returns `d` when `x` is absent or empty. -/
def jsOr (v : Option String) (d : String) : String :=
  match v with
  | none => d
  | some s => if s = "" then d else s

/-- The `keys` object of an incoming push subscription
(`subscription.keys.p256dh`, `subscription.keys.auth`); every field may be
absent in a raw request body. -/
structure SubscriptionKeys where
  p256dh : Option String
  auth : Option String
deriving Repr, DecidableEq

/-- An incoming `subscription` object of a request body. -/
structure SubscriptionPayload where
  endpoint : Option String
  keys : Option SubscriptionKeys
deriving Repr, DecidableEq

/-- Parsed body of a `POST /api/push-subscriptions` request:
`const { subscription, userType, ticketCode } = await request.json()`. -/
structure PushPostBody where
  subscription : Option SubscriptionPayload
  userType : Option String
  ticketCode : Option String
deriving Repr, DecidableEq

/-- Parsed body of a `DELETE /api/push-subscriptions` request:
`const { subscription } = await request.json()`. -/
structure PushDeleteBody where
  subscription : Option SubscriptionPayload
deriving Repr, DecidableEq

/-- The request headers the `POST` handler reads (`user-agent`,
`x-forwarded-for`, `x-real-ip`). -/
structure RequestInfo where
  userAgent : Option String
  xForwardedFor : Option String
  xRealIp : Option String
deriving Repr, DecidableEq

/-- A stored document of the `ticket_subscriptions` collection, mirroring the
`subscriptionData` object built by the `POST` handler.  Dates are modelled as
natural-number timestamps; the fields added later by the `DELETE` handler
(`unsubscribedAt`) are optional. -/
structure SubRecord where
  endpoint : String
  p256dh : String
  auth : String
  userType : String
  ticketCodes : List String
  isActive : Bool
  createdAt : Nat
  lastUsed : Nat
  lifecycleStage : String
  lifecycleCreatedAt : Nat
  lifecycleUpdatedAt : Nat
  autoExpire : Bool
  expiresAt : Option Nat
  userAgent : String
  ip : String
  deviceTimestamp : Nat
  unsubscribedAt : Option Nat
deriving Repr, DecidableEq

/-- An HTTP response of the push-subscription handlers: status code, the
`message` field of the JSON body, the `deactivated` count reported by a
successful `DELETE`, and the `success` flag of a successful `POST`. -/
structure ApiResponse where
  status : Nat
  message : String
  deactivated : Option Nat := none
  success : Bool := false
deriving Repr, DecidableEq

/-- The `500 Error interno del servidor` response produced by the
`catch` blocks of both push-subscription handlers. -/
def err500 : ApiResponse :=
  { status := 500, message := "Error interno del servidor" }

/-- Failure point of a `POST /api/push-subscriptions` run: which of the
awaited database operations throws (or none of them). -/
inductive PostFail where
  | noFail | connect | find | deleteOp | insertOp | findOne
deriving Repr, DecidableEq

/-- Failure point of a `DELETE /api/push-subscriptions` run. -/
inductive DeleteFail where
  | noFail | connect | find | updateOp
deriving Repr, DecidableEq

/-- The filter `{ "subscription.endpoint": endpoint, userType }` used by the
`POST` handler's `find` and `deleteMany`. -/
def matchesSub (ep ut : String) (r : SubRecord) : Bool :=
  r.endpoint == ep && r.userType == ut

/-- The `subscriptionData` document inserted by the `POST` handler. -/
def newSubRecord (ep pd au ut : String) (ticketCode : Option String)
    (req : RequestInfo) (now : Nat) : SubRecord :=
  { endpoint := ep
    p256dh := pd
    auth := au
    userType := ut
    ticketCodes := if truthy ticketCode then [ticketCode.getD ""] else []
    isActive := true
    createdAt := now
    lastUsed := now
    lifecycleStage := "active"
    lifecycleCreatedAt := now
    lifecycleUpdatedAt := now
    autoExpire := false
    expiresAt := none
    userAgent := jsOr req.userAgent "Unknown"
    ip := jsOr req.xForwardedFor (jsOr req.xRealIp "Unknown")
    deviceTimestamp := now
    unsubscribedAt := none }

/-- The `POST /api/push-subscriptions` handler.  `body = none` models a
request whose JSON body fails to parse.  Returns the response together with
the state of the `ticket_subscriptions` collection after the run. -/
def pushPOST (fail : PostFail) (body : Option PushPostBody) (req : RequestInfo)
    (now : Nat) (store : List SubRecord) : ApiResponse × List SubRecord :=
  if fail = .connect then (err500, store) else
  match body with
  | none => (err500, store)
  | some b =>
    if !b.subscription.isSome || !truthy b.userType then
      ({ status := 400, message := "Datos incompletos" }, store)
    else
      match b.subscription with
      | none => ({ status := 400, message := "Datos incompletos" }, store)
      | some sub =>
        if !truthy sub.endpoint || !truthy (sub.keys.bind SubscriptionKeys.p256dh)
            || !truthy (sub.keys.bind SubscriptionKeys.auth) then
          ({ status := 400, message := "Suscripción inválida" }, store)
        else
          let ep := sub.endpoint.getD ""
          let pd := (sub.keys.bind SubscriptionKeys.p256dh).getD ""
          let au := (sub.keys.bind SubscriptionKeys.auth).getD ""
          let ut := b.userType.getD ""
          if fail = .find then (err500, store) else
          if fail = .deleteOp then (err500, store) else
          let store1 := store.filter (fun r => !matchesSub ep ut r)
          if fail = .insertOp then (err500, store1) else
          let store2 := store1 ++ [newSubRecord ep pd au ut b.ticketCode req now]
          if fail = .findOne then (err500, store2) else
          ({ status := 201, message := "Suscripción guardada exitosamente",
             success := true }, store2)

/-- The `$set` applied by the `DELETE` handler's `updateMany` to every record
matching the endpoint. -/
def deactivateRecord (now : Nat) (r : SubRecord) : SubRecord :=
  { r with
    isActive := false
    unsubscribedAt := some now
    lifecycleStage := "unsubscribed"
    lifecycleUpdatedAt := now }

/-- The `DELETE /api/push-subscriptions` handler.  It does not remove
documents: it `updateMany`s every record whose `subscription.endpoint` equals
the given endpoint, marking it inactive.  `modifiedCount` is the number of
matching records. -/
def pushDELETE (fail : DeleteFail) (body : Option PushDeleteBody) (now : Nat)
    (store : List SubRecord) : ApiResponse × List SubRecord :=
  if fail = .connect then (err500, store) else
  match body with
  | none => (err500, store)
  | some b =>
    if !truthy (b.subscription.bind SubscriptionPayload.endpoint) then
      ({ status := 400, message := "Endpoint de suscripción requerido" }, store)
    else
      let ep := (b.subscription.bind SubscriptionPayload.endpoint).getD ""
      if fail = .find then (err500, store) else
      if fail = .updateOp then (err500, store) else
      let modifiedCount := (store.filter (fun r => r.endpoint == ep)).length
      let store1 := store.map (fun r =>
        if r.endpoint == ep then deactivateRecord now r else r)
      if modifiedCount == 0 then
        ({ status := 404, message := "Suscripción no encontrada" }, store1)
      else
        ({ status := 200, message := "Suscripción desactivada exitosamente",
           deactivated := some modifiedCount }, store1)

/-! ## The pending-payments `GET` handler

Documents of the `pagos` collection are association lists of field names to
BSON-like values, so that the handler's projection (which drops every field
outside its include list) can be stated faithfully. -/

/-- A BSON-like field value: string, integer (also used for dates, as
timestamps) or boolean. -/
inductive BValue where
  | s (v : String)
  | i (v : Int)
  | b (v : Bool)
deriving Repr, DecidableEq

/-- A document of the `pagos` collection: field names with values. -/
abbrev PagoDoc := List (String × BValue)

/-- Value of field `k` in document `d` (first occurrence). -/
def getField (d : PagoDoc) (k : String) : Option BValue :=
  (d.find? (fun kv => kv.1 == k)).map Prod.snd

/-- The `find` filter of the handler:
`{ estado: "pendiente_validacion", estadoValidacion: "pendiente" }`. -/
def isPendingPayment (d : PagoDoc) : Bool :=
  getField d "estado" == some (.s "pendiente_validacion") &&
  getField d "estadoValidacion" == some (.s "pendiente")

/-- The include list of the handler's `.project`, in source order. -/
def projectionFields : List String :=
  ["_id", "ticketId", "codigoTicket", "tipoPago", "referenciaTransferencia",
   "banco", "telefono", "numeroIdentidad", "montoPagado", "montoPagadoUsd",
   "montoCalculado", "montoCalculadoTotal", "tasaCambioUsada", "fechaPago",
   "estado", "estadoValidacion", "tiempoSalida", "tiempoSalidaEstimado",
   "carInfo", "urlImagenComprobante", "urlImagenTickets", "isMultiplePayment",
   "ticketQuantity"]

/-- Projection of a document to the include list. -/
def projectDoc (d : PagoDoc) : PagoDoc :=
  d.filter (fun kv => projectionFields.contains kv.1)

/-- The `fechaPago` sort key of a document (0 when absent or not a date). -/
def fechaPagoVal (d : PagoDoc) : Int :=
  match getField d "fechaPago" with
  | some (.i n) => n
  | _ => 0

/-- The `.sort({ fechaPago: -1 })` comparison: descending by `fechaPago`. -/
def fechaDesc (a b : PagoDoc) : Bool :=
  fechaPagoVal b ≤ fechaPagoVal a

/-- Failure point of a `GET /api/admin/pending-payments` run. -/
inductive GetFail where
  | noFail | connect | find
deriving Repr, DecidableEq

/-- Response of the pending-payments handler: the JSON array of documents,
or an error status with the `message` field. -/
inductive GetResponse where
  | ok (docs : List PagoDoc)
  | error (status : Nat) (message : String)
deriving Repr, DecidableEq

/-- The document list returned on success: filter, sort descending by
`fechaPago`, project. -/
def pendingPaymentsDocs (store : List PagoDoc) : List PagoDoc :=
  (((store.filter isPendingPayment).mergeSort fechaDesc).map projectDoc)

/-- The `GET /api/admin/pending-payments` handler. -/
def pendingPaymentsGET (fail : GetFail) (store : List PagoDoc) : GetResponse :=
  if fail = .connect ∨ fail = .find then
    .error 500 "Error al obtener pagos pendientes"
  else
    .ok (pendingPaymentsDocs store)

/-! ## The `CarRegistration` component

The component state relevant to the claims: the eight form fields, the
captured images, the status message, the submitting flag, whether the
`VehicleCapture` view is shown, and the `cameraRetryCount` ref. -/

/-- The `CarFormData` interface (the eight form fields). -/
structure CarFormData where
  placa : String
  marca : String
  modelo : String
  color : String
  nombreDueno : String
  telefono : String
  ticketAsociado : String
  nota : String
deriving Repr, DecidableEq

/-- The `capturedImages` state (all fields optional in the TS type). -/
structure CapturedImages where
  placaUrl : Option String
  vehiculoUrl : Option String
  confianzaPlaca : Option Int
  confianzaVehiculo : Option Int
deriving Repr, DecidableEq

/-- The `imagenes` object of the submit payload. -/
structure ImagenesPayload where
  plateImageUrl : Option String
  vehicleImageUrl : Option String
  capturaMetodo : String
  confianzaPlaca : Option Int
  confianzaVehiculo : Option Int
deriving Repr, DecidableEq

/-- The body POSTed to `/api/admin/cars`: the form fields spread together
with the optional `imagenes` object (`undefined` is dropped by
`JSON.stringify`, modelled as `none`). -/
structure SubmitData where
  form : CarFormData
  imagenes : Option ImagenesPayload
deriving Repr, DecidableEq

/-- The `submitData` object built at the start of `handleSubmit`. -/
def buildSubmitData (formData : CarFormData) (capturedImages : Option CapturedImages)
    (isMobile : Bool) : SubmitData :=
  { form := formData
    imagenes := capturedImages.map (fun c =>
      { plateImageUrl := c.placaUrl
        vehicleImageUrl := c.vehiculoUrl
        capturaMetodo := if isMobile then "camara_movil" else "camara_desktop"
        confianzaPlaca := c.confianzaPlaca
        confianzaVehiculo := c.confianzaVehiculo }) }

/-- Component state of `CarRegistration` (the parts the claims are about). -/
structure RegState where
  formData : CarFormData
  capturedImages : Option CapturedImages
  message : String
  isSubmitting : Bool
  showVehicleCapture : Bool
  cameraRetryCount : Nat
deriving Repr, DecidableEq

/-- The empty form `handleSubmit` resets to on success. -/
def emptyForm : CarFormData :=
  { placa := "", marca := "", modelo := "", color := "", nombreDueno := ""
    telefono := "", ticketAsociado := "", nota := "" }

/-- The argument of the `onVehicleDetected` callback. -/
structure VehicleData where
  placa : String
  marca : String
  modelo : String
  color : String
  plateImageUrl : String
  vehicleImageUrl : String
  plateConfidence : Int
  vehicleConfidence : Int
deriving Repr, DecidableEq

/-- The `handleVehicleDetected` callback: fills the four vehicle fields,
stores the captured images, closes the capture view and sets the message. -/
def handleVehicleDetected (v : VehicleData) (st : RegState) : RegState :=
  { st with
    formData := { st.formData with
      placa := v.placa, marca := v.marca, modelo := v.modelo, color := v.color }
    capturedImages := some
      { placaUrl := some v.plateImageUrl
        vehiculoUrl := some v.vehicleImageUrl
        confianzaPlaca := some v.plateConfidence
        confianzaVehiculo := some v.vehicleConfidence }
    showVehicleCapture := false
    message := "✅ Vehículo capturado: " ++ v.marca ++ " " ++ v.modelo ++ " "
      ++ v.color ++ " - Placa: " ++ v.placa }

/-- Outcome of the `fetch` in `handleSubmit`: an `ok` response, a non-`ok`
response (each carrying `data.message`), or a thrown error. -/
inductive SubmitOutcome where
  | ok (message : String)
  | notOk (message : String)
  | fetchError
deriving Repr, DecidableEq

/-- The state transition of one `handleSubmit` run, from the state at the
time of submission and the response outcome. -/
def handleSubmitResult (st : RegState) (outcome : SubmitOutcome) : RegState :=
  let st0 := { st with isSubmitting := true, message := "" }
  match outcome with
  | .ok m =>
      { st0 with
        message := "✅ " ++ m
        formData := emptyForm
        capturedImages := none
        isSubmitting := false }
  | .notOk m =>
      { st0 with message := "❌ " ++ m, isSubmitting := false }
  | .fetchError =>
      { st0 with message := "❌ Error al registrar el carro", isSubmitting := false }

/-- JavaScript `String.prototype.trim`: strip whitespace from both ends
(structurally recursive over the character list). -/
def jsTrim (s : String) : String :=
  ⟨((s.data.dropWhile Char.isWhitespace).reverse.dropWhile Char.isWhitespace).reverse⟩

/-- The `isFormValid` callback: on mobile only `placa` and `ticketAsociado`
must be non-blank; on desktop `Object.values(formData)` must all be
non-blank after trimming. -/
def isFormValid (isMobile : Bool) (formData : CarFormData) : Bool :=
  if isMobile then
    jsTrim formData.placa != "" && jsTrim formData.ticketAsociado != ""
  else
    jsTrim formData.placa != "" && jsTrim formData.marca != "" &&
    jsTrim formData.modelo != "" && jsTrim formData.color != "" &&
    jsTrim formData.nombreDueno != "" && jsTrim formData.telefono != "" &&
    jsTrim formData.ticketAsociado != "" && jsTrim formData.nota != ""

/-- `const maxRetries = 10`. -/
def maxRetries : Nat := 10

/-- The camera-attempt error message. -/
def cameraErrorMsg : String :=
  "❌ Máximo de intentos de cámara alcanzado. Verifique permisos o hardware."

/-- The `openCamera` callback: below the cap it shows the capture view and
increments the ref; at the cap it only sets the error message. -/
def openCamera (st : RegState) : RegState :=
  if st.cameraRetryCount < maxRetries then
    { st with
      showVehicleCapture := true
      cameraRetryCount := st.cameraRetryCount + 1 }
  else
    { st with message := cameraErrorMsg }

/-- The component events that touch `showVehicleCapture`, `cameraRetryCount`,
`formData` or `capturedImages`: opening the camera, cancelling the capture
view (`onCancel`), a detected vehicle (`onVehicleDetected`), and the
completion of a submit. -/
inductive RegEvent where
  | openCam
  | cancelCapture
  | vehicleDetected (v : VehicleData)
  | submitResult (o : SubmitOutcome)
deriving Repr, DecidableEq

/-- One step of the component: dispatch an event to its handler. -/
def regStep (st : RegState) : RegEvent → RegState
  | .openCam => openCamera st
  | .cancelCapture => { st with showVehicleCapture := false }
  | .vehicleDetected v => handleVehicleDetected v st
  | .submitResult o => handleSubmitResult st o

/-! ## Concrete sample inputs (used by witnesses and counterexamples) -/

/-- A sample `keys` object with both keys present. -/
def sampleKeys : SubscriptionKeys := { p256dh := some "pk1", auth := some "ak1" }

/-- A sample complete subscription payload. -/
def sampleSub : SubscriptionPayload :=
  { endpoint := some "https://push.example/ep1", keys := some sampleKeys }

/-- A sample valid `POST` body. -/
def sampleBody : PushPostBody :=
  { subscription := some sampleSub, userType := some "admin", ticketCode := some "T1" }

/-- Sample request headers. -/
def sampleReq : RequestInfo :=
  { userAgent := some "UA", xForwardedFor := none, xRealIp := none }

/-- A stored record for endpoint `https://push.example/ep1` and user type
`admin`. -/
def sampleStoredRec : SubRecord :=
  newSubRecord "https://push.example/ep1" "oldPk" "oldAk" "admin" none sampleReq 1

/-- A pending payment document (with an extra stored field outside the
projection list). -/
def samplePagoPending : PagoDoc :=
  [("_id", BValue.s "p1"), ("ticketId", BValue.s "t1"),
   ("estado", BValue.s "pendiente_validacion"),
   ("estadoValidacion", BValue.s "pendiente"),
   ("fechaPago", BValue.i 100), ("internalNote", BValue.s "x")]

/-- A non-pending payment document (already validated). -/
def samplePagoOther : PagoDoc :=
  [("_id", BValue.s "p2"), ("estado", BValue.s "validado"),
   ("estadoValidacion", BValue.s "pendiente"), ("fechaPago", BValue.i 50)]

/-! ## Theorems -/

/-- Auxiliary: along any event sequence, once the retry cap is reached and
the capture view is closed, it stays closed (no event can reopen it, and no
event ever lowers the retry counter). -/
theorem regSteps_no_capture (evs : List RegEvent) :
    ∀ st : RegState, maxRetries ≤ st.cameraRetryCount →
      st.showVehicleCapture = false →
      (evs.foldl regStep st).showVehicleCapture = false := by
  induction evs with
  | nil => intro st _ h2; simpa using h2
  | cons ev rest ih =>
    intro st h1 h2
    have hcount : maxRetries ≤ (regStep st ev).cameraRetryCount := by
      cases ev with
      | openCam =>
        simp only [regStep, openCamera]
        split
        · omega
        · exact h1
      | cancelCapture => exact h1
      | vehicleDetected v => exact h1
      | submitResult o => cases o <;> exact h1
    have hshow : (regStep st ev).showVehicleCapture = false := by
      cases ev with
      | openCam =>
        simp only [regStep, openCamera]
        split
        · omega
        · exact h2
      | cancelCapture => rfl
      | vehicleDetected v => rfl
      | submitResult o => cases o <;> exact h2
    simpa using ih (regStep st ev) hcount hshow

/-- C10: `openCamera` is bounded — `maxRetries` is 10, the counter never
exceeds the cap and is never decreased by any component event; once the
counter has reached the cap, `openCamera` only sets the error message
(leaving the counter and the capture flag unchanged), and along any further
event sequence the capture view is never shown again. -/
theorem c10_camera_bounded (st : RegState) (evs : List RegEvent) :
    maxRetries = 10 ∧
    (openCamera st).cameraRetryCount ≤ max st.cameraRetryCount maxRetries ∧
    (∀ ev, st.cameraRetryCount ≤ (regStep st ev).cameraRetryCount) ∧
    (maxRetries ≤ st.cameraRetryCount →
      openCamera st = { st with message := cameraErrorMsg }) ∧
    (maxRetries ≤ st.cameraRetryCount → st.showVehicleCapture = false →
      (evs.foldl regStep st).showVehicleCapture = false) := by
  refine ⟨rfl, ?_, ?_, ?_, ?_⟩
  · simp only [openCamera]
    split
    · show st.cameraRetryCount + 1 ≤ max st.cameraRetryCount maxRetries
      simp only [maxRetries] at *
      omega
    · show st.cameraRetryCount ≤ max st.cameraRetryCount maxRetries
      exact Nat.le_max_left _ _
  · intro ev
    cases ev with
    | openCam =>
      simp only [regStep, openCamera]
      split
      · show st.cameraRetryCount ≤ st.cameraRetryCount + 1
        omega
      · exact Nat.le_refl _
    | cancelCapture => exact Nat.le_refl _
    | vehicleDetected v => exact Nat.le_refl _
    | submitResult o => cases o <;> exact Nat.le_refl _
  · intro h
    simp only [openCamera]
    split
    · omega
    · rfl
  · intro h1 h2
    exact regSteps_no_capture evs st h1 h2

/-- C10 witness: a component state at the cap (10 attempts used, capture view
closed): `openCamera` only sets the error message, and two further open
attempts leave the capture view closed. -/
theorem c10_camera_bounded_witness :
    (openCamera
        { formData := emptyForm, capturedImages := none, message := "",
          isSubmitting := false, showVehicleCapture := false,
          cameraRetryCount := 10 } =
      { formData := emptyForm, capturedImages := none, message := cameraErrorMsg,
        isSubmitting := false, showVehicleCapture := false,
        cameraRetryCount := 10 }) ∧
    (([RegEvent.openCam, RegEvent.openCam].foldl regStep
        { formData := emptyForm, capturedImages := none, message := "",
          isSubmitting := false, showVehicleCapture := false,
          cameraRetryCount := 10 }).showVehicleCapture = false) := by
  refine ⟨?_, ?_⟩
  · exact (c10_camera_bounded
      { formData := emptyForm, capturedImages := none, message := "",
        isSubmitting := false, showVehicleCapture := false,
        cameraRetryCount := 10 } []).2.2.2.1 (by decide)
  · exact (c10_camera_bounded
      { formData := emptyForm, capturedImages := none, message := "",
        isSubmitting := false, showVehicleCapture := false,
        cameraRetryCount := 10 } [RegEvent.openCam, RegEvent.openCam]).2.2.2.2
      (by decide) rfl

/-- C7: on an `ok` response `handleSubmit` resets all eight form fields to
the empty string and clears the captured images; on a non-`ok` response (and
on a thrown fetch) the form fields and captured images are unchanged. -/
theorem c7_form_reset (st : RegState) (m : String) :
    ((handleSubmitResult st (SubmitOutcome.ok m)).formData = emptyForm ∧
     (handleSubmitResult st (SubmitOutcome.ok m)).capturedImages = none) ∧
    ((handleSubmitResult st (SubmitOutcome.notOk m)).formData = st.formData ∧
     (handleSubmitResult st (SubmitOutcome.notOk m)).capturedImages = st.capturedImages) ∧
    ((handleSubmitResult st SubmitOutcome.fetchError).formData = st.formData ∧
     (handleSubmitResult st SubmitOutcome.fetchError).capturedImages = st.capturedImages) := by
  refine ⟨⟨rfl, rfl⟩, ⟨rfl, rfl⟩, ⟨rfl, rfl⟩⟩

/-- C6: the submit payload contains an `imagenes` object exactly when images
were captured; when present it carries both image URLs, both confidence
values, and `capturaMetodo` is `camara_movil` on mobile and `camara_desktop`
on desktop; when no capture occurred the `imagenes` field is absent. -/
theorem c6_imagenes_optional (fd : CarFormData) (ci : Option CapturedImages)
    (isMobile : Bool) :
    (ci = none → (buildSubmitData fd ci isMobile).imagenes = none) ∧
    (∀ c, ci = some c →
      (buildSubmitData fd ci isMobile).imagenes = some
        { plateImageUrl := c.placaUrl
          vehicleImageUrl := c.vehiculoUrl
          capturaMetodo := if isMobile then "camara_movil" else "camara_desktop"
          confianzaPlaca := c.confianzaPlaca
          confianzaVehiculo := c.confianzaVehiculo }) ∧
    (buildSubmitData fd ci isMobile).form = fd ∧
    ((buildSubmitData fd ci isMobile).imagenes = none ↔ ci = none) := by
  refine ⟨?_, ?_, rfl, ?_⟩
  · rintro rfl; rfl
  · rintro c rfl; rfl
  · cases ci <;> simp [buildSubmitData]

/-- C6 witness: with captured images on mobile the payload carries the
`imagenes` object with `camara_movil`; with no capture the field is absent. -/
theorem c6_imagenes_optional_witness :
    (buildSubmitData emptyForm none true).imagenes = none ∧
    (buildSubmitData emptyForm
        (some { placaUrl := some "p.jpg", vehiculoUrl := some "v.jpg",
                confianzaPlaca := some 9, confianzaVehiculo := some 8 }) true).imagenes =
      some { plateImageUrl := some "p.jpg", vehicleImageUrl := some "v.jpg",
             capturaMetodo := if true then "camara_movil" else "camara_desktop",
             confianzaPlaca := some 9, confianzaVehiculo := some 8 } := by
  refine ⟨(c6_imagenes_optional emptyForm none true).1 rfl, ?_⟩
  exact (c6_imagenes_optional emptyForm
    (some { placaUrl := some "p.jpg", vehiculoUrl := some "v.jpg",
            confianzaPlaca := some 9, confianzaVehiculo := some 8 }) true).2.1 _ rfl

/-- C9: the validity predicate is asymmetric — on mobile exactly `placa` and
`ticketAsociado` must be non-blank after trimming, on desktop all eight
fields (including `nota`) must be non-blank, so a desktop submission with a
blank note is impossible. -/
theorem c9_validity_asymmetric (fd : CarFormData) :
    (isFormValid true fd = true ↔
      jsTrim fd.placa ≠ "" ∧ jsTrim fd.ticketAsociado ≠ "") ∧
    (isFormValid false fd = true ↔
      jsTrim fd.placa ≠ "" ∧ jsTrim fd.marca ≠ "" ∧ jsTrim fd.modelo ≠ "" ∧
      jsTrim fd.color ≠ "" ∧ jsTrim fd.nombreDueno ≠ "" ∧ jsTrim fd.telefono ≠ "" ∧
      jsTrim fd.ticketAsociado ≠ "" ∧ jsTrim fd.nota ≠ "") ∧
    (jsTrim fd.nota = "" → isFormValid false fd = false) := by
  refine ⟨?_, ?_, ?_⟩
  · simp [isFormValid]
  · simp [isFormValid, and_assoc]
  · intro h
    simp [isFormValid, h]

/-- C9 witness: a fully filled form with a blank note is valid on mobile but
invalid on desktop. -/
theorem c9_validity_asymmetric_witness :
    isFormValid false
      { placa := "ABC123", marca := "Toyota", modelo := "Corolla",
        color := "Blanco", nombreDueno := "Juan", telefono := "0414",
        ticketAsociado := "T1", nota := "" } = false ∧
    isFormValid true
      { placa := "ABC123", marca := "Toyota", modelo := "Corolla",
        color := "Blanco", nombreDueno := "Juan", telefono := "0414",
        ticketAsociado := "T1", nota := "" } = true := by
  refine ⟨?_, by decide⟩
  exact (c9_validity_asymmetric
    { placa := "ABC123", marca := "Toyota", modelo := "Corolla",
      color := "Blanco", nombreDueno := "Juan", telefono := "0414",
      ticketAsociado := "T1", nota := "" }).2.2 (by decide)

/-- C1: for every valid `POST` body, a successful run returns 201 and leaves
the store with every previous record for the (endpoint, userType) pair
removed, exactly one new record appended for that pair, and hence exactly
one record matching both the endpoint and the userType. -/
theorem c1_post_dedup (b : PushPostBody) (sub : SubscriptionPayload)
    (req : RequestInfo) (now : Nat) (store : List SubRecord)
    (hsub : b.subscription = some sub)
    (hut : truthy b.userType = true)
    (hep : truthy sub.endpoint = true)
    (hpd : truthy (sub.keys.bind SubscriptionKeys.p256dh) = true)
    (hau : truthy (sub.keys.bind SubscriptionKeys.auth) = true) :
    (pushPOST PostFail.noFail (some b) req now store).1.status = 201 ∧
    (pushPOST PostFail.noFail (some b) req now store).2 =
      store.filter
          (fun r => !matchesSub (sub.endpoint.getD "") (b.userType.getD "") r)
        ++ [newSubRecord (sub.endpoint.getD "")
              ((sub.keys.bind SubscriptionKeys.p256dh).getD "")
              ((sub.keys.bind SubscriptionKeys.auth).getD "")
              (b.userType.getD "") b.ticketCode req now] ∧
    ((pushPOST PostFail.noFail (some b) req now store).2.filter
        (matchesSub (sub.endpoint.getD "") (b.userType.getD ""))).length = 1 := by
  have hrun : pushPOST PostFail.noFail (some b) req now store =
      ({ status := 201, message := "Suscripción guardada exitosamente",
         success := true },
       store.filter
           (fun r => !matchesSub (sub.endpoint.getD "") (b.userType.getD "") r)
         ++ [newSubRecord (sub.endpoint.getD "")
               ((sub.keys.bind SubscriptionKeys.p256dh).getD "")
               ((sub.keys.bind SubscriptionKeys.auth).getD "")
               (b.userType.getD "") b.ticketCode req now]) := by
    simp [pushPOST, hsub, hut, hep, hpd, hau]
  refine ⟨by rw [hrun], by rw [hrun], ?_⟩
  rw [hrun]
  rw [List.filter_append, List.filter_filter]
  have hnil :
      store.filter (fun r =>
        matchesSub (sub.endpoint.getD "") (b.userType.getD "") r &&
        !matchesSub (sub.endpoint.getD "") (b.userType.getD "") r) = [] := by
    apply List.filter_eq_nil_iff.mpr
    intro r _
    cases matchesSub (sub.endpoint.getD "") (b.userType.getD "") r <;> simp
  rw [hnil]
  simp [matchesSub, newSubRecord]

/-- C1 witness: a concrete valid body against a store already holding a
record for the same endpoint and user type: the run succeeds and exactly one
matching record remains. -/
theorem c1_post_dedup_witness :
    (pushPOST PostFail.noFail (some sampleBody) sampleReq 2 [sampleStoredRec]).1.status = 201 ∧
    ((pushPOST PostFail.noFail (some sampleBody) sampleReq 2 [sampleStoredRec]).2.filter
        (matchesSub (sampleSub.endpoint.getD "") (sampleBody.userType.getD ""))).length = 1 := by
  refine ⟨?_, ?_⟩
  · exact (c1_post_dedup sampleBody sampleSub sampleReq 2 [sampleStoredRec]
      rfl (by decide) (by decide) (by decide) (by decide)).1
  · exact (c1_post_dedup sampleBody sampleSub sampleReq 2 [sampleStoredRec]
      rfl (by decide) (by decide) (by decide) (by decide)).2.2

/-- C3 counterexample: a body whose `subscription` is present but lacks an
endpoint, and whose `userType` is also absent.  The claim's second clause
demands the message `Suscripción inválida`, but the handler answers
`Datos incompletos` (the first check fires first). -/
theorem c3_overlap_cex :
    (pushPOST PostFail.noFail
        (some { subscription := some { endpoint := none, keys := some sampleKeys },
                userType := none, ticketCode := none })
        sampleReq 0 []).1.message = "Datos incompletos" ∧
    ¬ (pushPOST PostFail.noFail
        (some { subscription := some { endpoint := none, keys := some sampleKeys },
                userType := none, ticketCode := none })
        sampleReq 0 []).1.message = "Suscripción inválida" := by
  refine ⟨rfl, by decide⟩

/-- C3 (amended): the `POST` handler validates before touching the store —
a body whose `subscription` or `userType` is missing gets
`400 Datos incompletos`; a body whose `subscription` and `userType` are both
present but whose `endpoint`, `keys.p256dh` or `keys.auth` is missing gets
`400 Suscripción inválida`; in both cases the store is untouched. -/
theorem c3_validation (b : PushPostBody) (req : RequestInfo) (now : Nat)
    (store : List SubRecord) :
    (b.subscription = none ∨ truthy b.userType = false →
      pushPOST PostFail.noFail (some b) req now store =
        ({ status := 400, message := "Datos incompletos" }, store)) ∧
    (∀ sub, b.subscription = some sub → truthy b.userType = true →
      (truthy sub.endpoint = false ∨
        truthy (sub.keys.bind SubscriptionKeys.p256dh) = false ∨
        truthy (sub.keys.bind SubscriptionKeys.auth) = false) →
      pushPOST PostFail.noFail (some b) req now store =
        ({ status := 400, message := "Suscripción inválida" }, store)) := by
  constructor
  · rintro (hnone | hut)
    · simp [pushPOST, hnone]
    · simp [pushPOST, hut]
  · rintro sub hsub hut (h | h | h) <;> simp [pushPOST, hsub, hut, h]

/-- C3 witness: a body with no `userType` is rejected as incomplete; a body
with both `subscription` and `userType` but no `auth` key is rejected as an
invalid subscription; the store (one record) is untouched in both runs. -/
theorem c3_validation_witness :
    pushPOST PostFail.noFail
        (some { subscription := some sampleSub, userType := none, ticketCode := none })
        sampleReq 3 [sampleStoredRec] =
      ({ status := 400, message := "Datos incompletos" }, [sampleStoredRec]) ∧
    pushPOST PostFail.noFail
        (some { subscription :=
                  some { endpoint := some "https://push.example/ep1",
                         keys := some { p256dh := some "pk1", auth := none } },
                userType := some "admin", ticketCode := none })
        sampleReq 3 [sampleStoredRec] =
      ({ status := 400, message := "Suscripción inválida" }, [sampleStoredRec]) := by
  constructor
  · exact (c3_validation
      { subscription := some sampleSub, userType := none, ticketCode := none }
      sampleReq 3 [sampleStoredRec]).1 (Or.inr rfl)
  · exact (c3_validation
      { subscription :=
          some { endpoint := some "https://push.example/ep1",
                 keys := some { p256dh := some "pk1", auth := none } },
        userType := some "admin", ticketCode := none }
      sampleReq 3 [sampleStoredRec]).2 _ rfl rfl (Or.inr (Or.inr rfl))

/-- C4 counterexample: a store holding one record for the requested endpoint.
The `DELETE` run reports success, yet the record is **not** removed from the
store — it is still there (marked inactive), so the endpoint does not delete
records. -/
theorem c4_soft_delete_cex :
    (pushDELETE DeleteFail.noFail
        (some { subscription := some sampleSub }) 9 [sampleStoredRec]).1.status = 200 ∧
    ((pushDELETE DeleteFail.noFail
        (some { subscription := some sampleSub }) 9 [sampleStoredRec]).2.filter
        (fun r => r.endpoint == "https://push.example/ep1")).length = 1 := by
  refine ⟨by decide, by decide⟩

/-- C4 (amended): the `DELETE` endpoint deactivates subscription records in
place (sets `isActive` to `false`, records `unsubscribedAt` and marks the
lifecycle stage `unsubscribed`) instead of removing them: a body lacking
`subscription.endpoint` gets HTTP 400; otherwise every record whose
`subscription.endpoint` equals the given endpoint is updated regardless of
`userType`, with HTTP 404 when zero records are affected and a success
response reporting the affected count otherwise. -/
theorem c4_delete_behaviour (b : PushDeleteBody) (now : Nat)
    (store : List SubRecord) :
    (truthy (b.subscription.bind SubscriptionPayload.endpoint) = false →
      pushDELETE DeleteFail.noFail (some b) now store =
        ({ status := 400, message := "Endpoint de suscripción requerido" }, store)) ∧
    (∀ ep, b.subscription.bind SubscriptionPayload.endpoint = some ep → ep ≠ "" →
      (pushDELETE DeleteFail.noFail (some b) now store).2 =
        store.map (fun r => if r.endpoint == ep then deactivateRecord now r else r) ∧
      ((store.filter (fun r => r.endpoint == ep)).length = 0 →
        (pushDELETE DeleteFail.noFail (some b) now store).1 =
          { status := 404, message := "Suscripción no encontrada" }) ∧
      (0 < (store.filter (fun r => r.endpoint == ep)).length →
        (pushDELETE DeleteFail.noFail (some b) now store).1 =
          { status := 200, message := "Suscripción desactivada exitosamente",
            deactivated := some (store.filter (fun r => r.endpoint == ep)).length })) := by
  constructor
  · intro h
    simp [pushDELETE, h]
  · intro ep hep hne
    have htr2 : truthy (some ep) = true := by simpa [truthy] using hne
    refine ⟨?_, ?_, ?_⟩
    · simp [pushDELETE, hep, htr2]
      split <;> simp
    · intro hzero
      simp [pushDELETE, hep, htr2, hzero]
    · intro hpos
      have hzero : ((store.filter (fun r => r.endpoint == ep)).length == 0) = false := by
        rw [beq_eq_false_iff_ne]
        omega
      simp [pushDELETE, hep, htr2, hzero]

/-- C4 witness: a missing endpoint yields 400 with the store untouched; a
request for a stored endpoint deactivates the record (regardless of user
type) and reports one affected record. -/
theorem c4_delete_behaviour_witness :
    pushDELETE DeleteFail.noFail
        (some { subscription := some { endpoint := none, keys := none } }) 9
        [sampleStoredRec] =
      ({ status := 400, message := "Endpoint de suscripción requerido" },
       [sampleStoredRec]) ∧
    (pushDELETE DeleteFail.noFail
        (some { subscription := some sampleSub }) 9 [sampleStoredRec]).2 =
      [sampleStoredRec].map (fun r =>
        if r.endpoint == "https://push.example/ep1" then deactivateRecord 9 r else r) ∧
    (pushDELETE DeleteFail.noFail
        (some { subscription := some sampleSub }) 9 [sampleStoredRec]).1 =
      { status := 200, message := "Suscripción desactivada exitosamente",
        deactivated := some ([sampleStoredRec].filter
          (fun r => r.endpoint == "https://push.example/ep1")).length } := by
  refine ⟨?_, ?_, ?_⟩
  · exact (c4_delete_behaviour { subscription := some { endpoint := none, keys := none } }
      9 [sampleStoredRec]).1 rfl
  · exact ((c4_delete_behaviour { subscription := some sampleSub }
      9 [sampleStoredRec]).2 "https://push.example/ep1" rfl (by decide)).1
  · exact ((c4_delete_behaviour { subscription := some sampleSub }
      9 [sampleStoredRec]).2 "https://push.example/ep1" rfl (by decide)).2.2 (by decide)

/-- Auxiliary: filtering to the include list does not change which pair
`find?` locates, for a key of the include list. -/
theorem find?_filter_projection (l : List (String × BValue)) (k : String)
    (hk : projectionFields.contains k = true) :
    (l.filter (fun kv => projectionFields.contains kv.1)).find?
        (fun kv => kv.1 == k) =
      l.find? (fun kv => kv.1 == k) := by
  induction l with
  | nil => rfl
  | cons kv rest ih =>
    rw [List.filter_cons]
    cases hkv : (kv.1 == k) with
    | true =>
      have hc : projectionFields.contains kv.1 = true := by
        rw [eq_of_beq hkv]; exact hk
      rw [hc, if_pos rfl, List.find?_cons, List.find?_cons, hkv]
    | false =>
      cases hc : projectionFields.contains kv.1 with
      | true =>
        rw [if_pos rfl, List.find?_cons, List.find?_cons, hkv]
        exact ih
      | false =>
        rw [if_neg (by simp), ih, List.find?_cons, hkv]

/-- Auxiliary: projection preserves the (first occurrence of) any field of
the include list. -/
theorem getField_projectDoc (d : PagoDoc) (k : String)
    (hk : projectionFields.contains k = true) :
    getField (projectDoc d) k = getField d k := by
  unfold getField projectDoc
  rw [find?_filter_projection d k hk]

/-- Auxiliary: the sort key survives projection (`fechaPago` is projected). -/
theorem fechaPagoVal_projectDoc (d : PagoDoc) :
    fechaPagoVal (projectDoc d) = fechaPagoVal d := by
  unfold fechaPagoVal
  rw [getField_projectDoc d "fechaPago" (by rfl)]

/-- C2: the pending-payments `GET` returns (projections of) exactly the
documents of the store whose `estado` is `pendiente_validacion` and whose
`estadoValidacion` is `pendiente`; a document failing either condition never
contributes to the response. -/
theorem c2_pending_filter (store : List PagoDoc) (x : PagoDoc) :
    pendingPaymentsGET GetFail.noFail store =
      GetResponse.ok (pendingPaymentsDocs store) ∧
    (x ∈ pendingPaymentsDocs store ↔
      ∃ d, d ∈ store ∧
        getField d "estado" = some (BValue.s "pendiente_validacion") ∧
        getField d "estadoValidacion" = some (BValue.s "pendiente") ∧
        x = projectDoc d) := by
  refine ⟨by simp [pendingPaymentsGET], ?_, ?_⟩
  · intro hx
    rcases List.mem_map.mp hx with ⟨d, hd, rfl⟩
    rw [List.mem_mergeSort] at hd
    have h := List.mem_filter.mp hd
    have h2 := h.2
    simp only [isPendingPayment, Bool.and_eq_true, beq_iff_eq] at h2
    exact ⟨d, h.1, h2.1, h2.2, rfl⟩
  · rintro ⟨d, hd, h1, h2, rfl⟩
    apply List.mem_map_of_mem
    rw [List.mem_mergeSort]
    exact List.mem_filter.mpr ⟨hd, by simp [isPendingPayment, h1, h2]⟩

/-- C2 witness: on a concrete two-document store the handler answers with the
document list, and the projection of the pending document is a member while
the validated one only fails the filter. -/
theorem c2_pending_filter_witness :
    pendingPaymentsGET GetFail.noFail [samplePagoPending, samplePagoOther] =
      GetResponse.ok (pendingPaymentsDocs [samplePagoPending, samplePagoOther]) ∧
    projectDoc samplePagoPending ∈
      pendingPaymentsDocs [samplePagoPending, samplePagoOther] := by
  refine ⟨(c2_pending_filter [samplePagoPending, samplePagoOther] []).1, ?_⟩
  exact (c2_pending_filter [samplePagoPending, samplePagoOther]
      (projectDoc samplePagoPending)).2.mpr
    ⟨samplePagoPending, by simp, by decide, by decide, rfl⟩

/-- C8 counterexample: the projection include list has 23 fields, not 24 as
the claim counts them. -/
theorem c8_field_count_cex : ¬ projectionFields.length = 24 := by decide

/-- C8 (amended): the pending-payments response is sorted by `fechaPago` in
descending order, and every returned document carries only fields of the
projection include list — which has exactly 23 entries. -/
theorem c8_sorted_projected (store : List PagoDoc) :
    List.Pairwise (fun a b => fechaPagoVal b ≤ fechaPagoVal a)
      (pendingPaymentsDocs store) ∧
    (∀ x ∈ pendingPaymentsDocs store, ∀ kv ∈ x, kv.1 ∈ projectionFields) ∧
    projectionFields.length = 23 := by
  refine ⟨?_, ?_, rfl⟩
  · have htrans : ∀ a b c : PagoDoc,
        fechaDesc a b → fechaDesc b c → fechaDesc a c := by
      intro a b c hab hbc
      simp only [fechaDesc, decide_eq_true_eq] at *
      omega
    have htotal : ∀ a b : PagoDoc, fechaDesc a b || fechaDesc b a := by
      intro a b
      simp only [fechaDesc, Bool.or_eq_true, decide_eq_true_eq]
      omega
    have h := List.sorted_mergeSort htrans htotal (store.filter isPendingPayment)
    unfold pendingPaymentsDocs
    refine List.Pairwise.map projectDoc ?_ h
    intro a b hab
    rw [fechaPagoVal_projectDoc, fechaPagoVal_projectDoc]
    simpa [fechaDesc] using hab
  · intro x hx kv hkv
    rcases List.mem_map.mp hx with ⟨d, _, rfl⟩
    have h2 := (List.mem_filter.mp hkv).2
    simpa [List.contains] using h2

/-- C8 witness: the projection of a concrete document only carries projected
fields (the extra `internalNote` field is dropped), and the include list has
23 entries. -/
theorem c8_sorted_projected_witness :
    (∀ kv ∈ projectDoc samplePagoPending, kv.1 ∈ projectionFields) ∧
    projectionFields.length = 23 := by
  refine ⟨?_, (c8_sorted_projected []).2.2⟩
  refine (c8_sorted_projected [samplePagoPending]).2.1
    (projectDoc samplePagoPending) ?_
  apply List.mem_map_of_mem
  rw [List.mem_mergeSort]
  exact List.mem_filter.mpr ⟨by simp, by decide⟩

/-- Auxiliary: every `POST` response has status 201, 400 or 500. -/
theorem pushPOST_status (fail : PostFail) (body : Option PushPostBody)
    (req : RequestInfo) (now : Nat) (store : List SubRecord) :
    (pushPOST fail body req now store).1.status = 201 ∨
    (pushPOST fail body req now store).1.status = 400 ∨
    (pushPOST fail body req now store).1.status = 500 := by
  unfold pushPOST
  repeat' split
  all_goals simp [err500]

/-- Auxiliary: every `DELETE` response has status 200, 400, 404 or 500. -/
theorem pushDELETE_status (fail : DeleteFail) (body : Option PushDeleteBody)
    (now : Nat) (store : List SubRecord) :
    (pushDELETE fail body now store).1.status = 200 ∨
    (pushDELETE fail body now store).1.status = 400 ∨
    (pushDELETE fail body now store).1.status = 404 ∨
    (pushDELETE fail body now store).1.status = 500 := by
  unfold pushDELETE
  repeat' split
  all_goals simp [err500]
  all_goals repeat' split
  all_goals simp

/-- Auxiliary: a `POST` run failing at the `find` or `deleteMany` step either
stops at validation (400, store untouched) or aborts with 500 and the store
untouched. -/
theorem pushPOST_early_fail (fail : PostFail) (b : PushPostBody)
    (req : RequestInfo) (now : Nat) (store : List SubRecord)
    (hf : fail = PostFail.find ∨ fail = PostFail.deleteOp) :
    ((pushPOST fail (some b) req now store).1.status = 400 ∧
      (pushPOST fail (some b) req now store).2 = store) ∨
    pushPOST fail (some b) req now store = (err500, store) := by
  have hfc : (fail = PostFail.connect) = False := by
    rcases hf with rfl | rfl <;> simp
  rcases hsub : b.subscription with _ | sub
  · exact Or.inl (by constructor <;> simp [pushPOST, hsub, hfc])
  · cases hut : truthy b.userType with
    | false => exact Or.inl (by constructor <;> simp [pushPOST, hsub, hut, hfc])
    | true =>
      cases hep : truthy sub.endpoint with
      | false => exact Or.inl (by constructor <;> simp [pushPOST, hsub, hut, hep, hfc])
      | true =>
        cases hpd : truthy (sub.keys.bind SubscriptionKeys.p256dh) with
        | false =>
          exact Or.inl (by constructor <;> simp [pushPOST, hsub, hut, hep, hpd, hfc])
        | true =>
          cases hau : truthy (sub.keys.bind SubscriptionKeys.auth) with
          | false =>
            exact Or.inl (by constructor <;> simp [pushPOST, hsub, hut, hep, hpd, hau, hfc])
          | true =>
            refine Or.inr ?_
            rcases hf with rfl | rfl <;>
              simp [pushPOST, hsub, hut, hep, hpd, hau]

/-- Auxiliary: a `POST` run failing at the `insertOne` step either stops at
validation (400, store untouched) or aborts with 500 after the delete has
been applied — the delete is not compensated. -/
theorem pushPOST_insert_fail (b : PushPostBody) (req : RequestInfo) (now : Nat)
    (store : List SubRecord) :
    ((pushPOST PostFail.insertOp (some b) req now store).1.status = 400 ∧
      (pushPOST PostFail.insertOp (some b) req now store).2 = store) ∨
    (∃ sub, b.subscription = some sub ∧
      pushPOST PostFail.insertOp (some b) req now store =
        (err500, store.filter (fun r =>
          !matchesSub (sub.endpoint.getD "") (b.userType.getD "") r))) := by
  rcases hsub : b.subscription with _ | sub
  · exact Or.inl (by constructor <;> simp [pushPOST, hsub])
  · cases hut : truthy b.userType with
    | false => exact Or.inl (by constructor <;> simp [pushPOST, hsub, hut])
    | true =>
      cases hep : truthy sub.endpoint with
      | false => exact Or.inl (by constructor <;> simp [pushPOST, hsub, hut, hep])
      | true =>
        cases hpd : truthy (sub.keys.bind SubscriptionKeys.p256dh) with
        | false => exact Or.inl (by constructor <;> simp [pushPOST, hsub, hut, hep, hpd])
        | true =>
          cases hau : truthy (sub.keys.bind SubscriptionKeys.auth) with
          | false =>
            exact Or.inl (by constructor <;> simp [pushPOST, hsub, hut, hep, hpd, hau])
          | true =>
            exact Or.inr ⟨sub, rfl, by simp [pushPOST, hsub, hut, hep, hpd, hau]⟩

/-- Auxiliary: a `POST` run failing at the verification `findOne` step either
stops at validation (400, store untouched) or aborts with 500 after delete
and insert have both been applied — neither is compensated. -/
theorem pushPOST_findOne_fail (b : PushPostBody) (req : RequestInfo) (now : Nat)
    (store : List SubRecord) :
    ((pushPOST PostFail.findOne (some b) req now store).1.status = 400 ∧
      (pushPOST PostFail.findOne (some b) req now store).2 = store) ∨
    (∃ sub, b.subscription = some sub ∧
      pushPOST PostFail.findOne (some b) req now store =
        (err500,
          store.filter (fun r =>
            !matchesSub (sub.endpoint.getD "") (b.userType.getD "") r)
          ++ [newSubRecord (sub.endpoint.getD "")
                ((sub.keys.bind SubscriptionKeys.p256dh).getD "")
                ((sub.keys.bind SubscriptionKeys.auth).getD "")
                (b.userType.getD "") b.ticketCode req now])) := by
  rcases hsub : b.subscription with _ | sub
  · exact Or.inl (by constructor <;> simp [pushPOST, hsub])
  · cases hut : truthy b.userType with
    | false => exact Or.inl (by constructor <;> simp [pushPOST, hsub, hut])
    | true =>
      cases hep : truthy sub.endpoint with
      | false => exact Or.inl (by constructor <;> simp [pushPOST, hsub, hut, hep])
      | true =>
        cases hpd : truthy (sub.keys.bind SubscriptionKeys.p256dh) with
        | false => exact Or.inl (by constructor <;> simp [pushPOST, hsub, hut, hep, hpd])
        | true =>
          cases hau : truthy (sub.keys.bind SubscriptionKeys.auth) with
          | false =>
            exact Or.inl (by constructor <;> simp [pushPOST, hsub, hut, hep, hpd, hau])
          | true =>
            exact Or.inr ⟨sub, rfl, by simp [pushPOST, hsub, hut, hep, hpd, hau]⟩

/-- Auxiliary: a `DELETE` run failing at the `find` or `updateMany` step
either stops at validation (400) or aborts with 500; the store is untouched
in both cases. -/
theorem pushDELETE_op_fail (fail : DeleteFail) (b : PushDeleteBody) (now : Nat)
    (store : List SubRecord)
    (hf : fail = DeleteFail.find ∨ fail = DeleteFail.updateOp) :
    ((pushDELETE fail (some b) now store).1.status = 400 ∧
      (pushDELETE fail (some b) now store).2 = store) ∨
    pushDELETE fail (some b) now store = (err500, store) := by
  cases hep : truthy (b.subscription.bind SubscriptionPayload.endpoint) with
  | false =>
    refine Or.inl ?_
    rcases hf with rfl | rfl <;> exact (by constructor <;> simp [pushDELETE, hep])
  | true =>
    refine Or.inr ?_
    rcases hf with rfl | rfl <;> simp [pushDELETE, hep]

/-- C5: the entire failure handling of the three handlers is returning an
HTTP status — any thrown error (bad JSON or a failing database call) yields
the 500 response with no retry and no compensating store operation (when the
insert fails the preceding delete stays applied; when the post-insert lookup
fails the inserted record stays), a validation failure yields 400 (or 404
for a `DELETE` matching nothing), and no other status is ever produced. -/
theorem c5_failure_handling :
    (∀ store, pendingPaymentsGET GetFail.connect store =
        GetResponse.error 500 "Error al obtener pagos pendientes") ∧
    (∀ store, pendingPaymentsGET GetFail.find store =
        GetResponse.error 500 "Error al obtener pagos pendientes") ∧
    (∀ body req now store,
      pushPOST PostFail.connect body req now store = (err500, store)) ∧
    (∀ fail req now store,
      pushPOST fail none req now store = (err500, store)) ∧
    (∀ b req now store,
      ((pushPOST PostFail.find (some b) req now store).1.status = 400 ∧
        (pushPOST PostFail.find (some b) req now store).2 = store) ∨
      pushPOST PostFail.find (some b) req now store = (err500, store)) ∧
    (∀ b req now store,
      ((pushPOST PostFail.deleteOp (some b) req now store).1.status = 400 ∧
        (pushPOST PostFail.deleteOp (some b) req now store).2 = store) ∨
      pushPOST PostFail.deleteOp (some b) req now store = (err500, store)) ∧
    (∀ b req now store,
      ((pushPOST PostFail.insertOp (some b) req now store).1.status = 400 ∧
        (pushPOST PostFail.insertOp (some b) req now store).2 = store) ∨
      (∃ sub, b.subscription = some sub ∧
        pushPOST PostFail.insertOp (some b) req now store =
          (err500, store.filter (fun r =>
            !matchesSub (sub.endpoint.getD "") (b.userType.getD "") r)))) ∧
    (∀ b req now store,
      ((pushPOST PostFail.findOne (some b) req now store).1.status = 400 ∧
        (pushPOST PostFail.findOne (some b) req now store).2 = store) ∨
      (∃ sub, b.subscription = some sub ∧
        pushPOST PostFail.findOne (some b) req now store =
          (err500,
            store.filter (fun r =>
              !matchesSub (sub.endpoint.getD "") (b.userType.getD "") r)
            ++ [newSubRecord (sub.endpoint.getD "")
                  ((sub.keys.bind SubscriptionKeys.p256dh).getD "")
                  ((sub.keys.bind SubscriptionKeys.auth).getD "")
                  (b.userType.getD "") b.ticketCode req now]))) ∧
    (∀ fail body req now store,
      (pushPOST fail body req now store).1.status = 201 ∨
      (pushPOST fail body req now store).1.status = 400 ∨
      (pushPOST fail body req now store).1.status = 500) ∧
    (∀ body now store,
      pushDELETE DeleteFail.connect body now store = (err500, store)) ∧
    (∀ fail now store,
      pushDELETE fail none now store = (err500, store)) ∧
    (∀ b now store,
      ((pushDELETE DeleteFail.find (some b) now store).1.status = 400 ∧
        (pushDELETE DeleteFail.find (some b) now store).2 = store) ∨
      pushDELETE DeleteFail.find (some b) now store = (err500, store)) ∧
    (∀ b now store,
      ((pushDELETE DeleteFail.updateOp (some b) now store).1.status = 400 ∧
        (pushDELETE DeleteFail.updateOp (some b) now store).2 = store) ∨
      pushDELETE DeleteFail.updateOp (some b) now store = (err500, store)) ∧
    (∀ fail body now store,
      (pushDELETE fail body now store).1.status = 200 ∨
      (pushDELETE fail body now store).1.status = 400 ∨
      (pushDELETE fail body now store).1.status = 404 ∨
      (pushDELETE fail body now store).1.status = 500) := by
  refine ⟨fun store => rfl, fun store => rfl,
    fun body req now store => rfl,
    fun fail req now store => by cases fail <;> rfl,
    fun b req now store =>
      pushPOST_early_fail PostFail.find b req now store (Or.inl rfl),
    fun b req now store =>
      pushPOST_early_fail PostFail.deleteOp b req now store (Or.inr rfl),
    fun b req now store => pushPOST_insert_fail b req now store,
    fun b req now store => pushPOST_findOne_fail b req now store,
    fun fail body req now store => pushPOST_status fail body req now store,
    fun body now store => rfl,
    fun fail now store => by cases fail <;> rfl,
    fun b now store =>
      pushDELETE_op_fail DeleteFail.find b now store (Or.inl rfl),
    fun b now store =>
      pushDELETE_op_fail DeleteFail.updateOp b now store (Or.inr rfl),
    fun fail body now store => pushDELETE_status fail body now store⟩
